import Mathlib

/-!
Shallow embedding of the credential-resolution core of sp-rest-proxy
(src/src/auth) in Lean 4, with theorems checking the natural-language
specification against the code.

Conventions of the embedding:
- TypeScript objects become Lean structures; optional fields become Option.
- JavaScript truthiness on an optional string field is modelled as the field
  being `some` (the code only feeds genuine tokens or leaves fields absent);
  truthiness on an optional number field `x || d` is modelled explicitly,
  mapping both absence and 0 to the default d.
- Promise chains become pure functions returning outcome values together with
  the updated cache and the list of network requests issued; time is an
  explicit millisecond counter (Date.now()).
- The token Cache class (src/src/auth/utils/Cache.ts) is not present in the
  sources; it is modelled from the spec, see `Cache` below.
-/

/-! ## Credential descriptor model and discriminators (src/src/auth/IAuthOptions.ts) -/

/-- Untyped credential descriptor as it reaches the discriminators at runtime:
the union of the fields of IOnlineAappOnlyCredentials, IDeviceCodeCredentials
and IInteractiveBrowserCredentials, every field other than clientId possibly
absent (the discriminators defensively test for undefined). -/
structure AuthOptions where
  clientId : String := ""
  tenantId : Option String := none
  clientSecret : Option String := none
  deviceFlow : Option Bool := none
  authMethod : Option String := none
  redirectUri : Option String := none
  deriving DecidableEq, Repr

/-- IAuthOptions.ts, isDeviceCode: explicit authMethod tag first, then the
legacy deviceFlow flag. -/
def isDeviceCode (o : AuthOptions) : Bool :=
  if o.authMethod = some "deviceCode" then true
  else o.deviceFlow = some true

/-- IAuthOptions.ts, isInteractiveBrowser: explicit authMethod tag first, then
legacy detection: has tenantId, no deviceFlow, no clientSecret. -/
def isInteractiveBrowser (o : AuthOptions) : Bool :=
  if o.authMethod = some "interactive" then true
  else o.tenantId ≠ none ∧ o.deviceFlow ≠ some true ∧ o.clientSecret = none

/-- IAuthOptions.ts, isAppOnlyOnline: explicit authMethod tag first, then
legacy detection: has clientSecret, no deviceFlow, and authMethod unset. -/
def isAppOnlyOnline (o : AuthOptions) : Bool :=
  if o.authMethod = some "appOnly" then true
  else o.clientSecret ≠ none ∧ o.deviceFlow ≠ some true ∧ o.authMethod = none

/-! ## Resolver factory (src/src/auth/resolvers/AuthResolverFactory.ts) -/

/-- The resolver instance kinds the factory can return.  A custom resolver
produced by an externally registered factory is identified by a caller-chosen
name. -/
inductive Resolver where
  | fileConfig
  | deviceCode
  | interactiveBrowser
  | appOnly
  | custom (name : String)
  deriving DecidableEq, Repr

/-- Type of externally registered resolver factories: from site URL and
options to a resolver instance, or none for "not mine". -/
abbrev ResolverFactory := String → AuthOptions → Option Resolver

/-- AuthResolverFactory.resolve: absent options delegate to FileConfig;
otherwise the registered custom factories are consulted in registration order
and the first non-null result wins; otherwise built-in classification order
device-code, interactive, app-only; otherwise a configuration error.
The registration-order list customResolvers is passed explicitly. -/
def resolve (customResolvers : List ResolverFactory) (siteUrl : String)
    (options : Option AuthOptions) : Except String Resolver :=
  match options with
  | none => .ok .fileConfig
  | some opts =>
    match customResolvers.findSome? (fun factory => factory siteUrl opts) with
    | some r => .ok r
    | none =>
      if isDeviceCode opts then .ok .deviceCode
      else if isInteractiveBrowser opts then .ok .interactiveBrowser
      else if isAppOnlyOnline opts then .ok .appOnly
      else .error "Error while resolving authentication class"

/-! ## Theorems for claims C1 and C3 -/

theorem findSome?_append_of_forall_none {α β : Type} (f : α → Option β)
    (l₁ l₂ : List α) (h : ∀ g ∈ l₁, f g = none) :
    (l₁ ++ l₂).findSome? f = l₂.findSome? f := by
  induction l₁ with
  | nil => simp
  | cons a l ih =>
    have ha : f a = none := h a (List.mem_cons_self a l)
    simp [List.findSome?_cons, ha]
    exact ih (fun g hg => h g (List.mem_cons_of_mem a hg))

/-- Claim C1: with a present descriptor, resolve offers it to each registered
factory in registration order and the first non-null result wins; if no custom
factory matches, it dispatches through the built-in order device-code, then
interactive, then app-only; if nothing matches it fails with the configuration
error; and the selection is a pure function of the inputs, hence stable across
repeated calls. -/
theorem resolve_dispatch (siteUrl : String) (d : AuthOptions) :
    (∀ (front back : List ResolverFactory) (f : ResolverFactory) (r : Resolver),
      (∀ g ∈ front, g siteUrl d = none) → f siteUrl d = some r →
      resolve (front ++ f :: back) siteUrl (some d) = .ok r) ∧
    (∀ (facs : List ResolverFactory),
      (∀ g ∈ facs, g siteUrl d = none) →
      resolve facs siteUrl (some d) =
        (if isDeviceCode d then .ok .deviceCode
         else if isInteractiveBrowser d then .ok .interactiveBrowser
         else if isAppOnlyOnline d then .ok .appOnly
         else .error "Error while resolving authentication class")) ∧
    (∀ (facs : List ResolverFactory),
      resolve facs siteUrl (some d) = resolve facs siteUrl (some d)) := by
  refine ⟨?_, ?_, fun _ => rfl⟩
  · intro front back f r hfront hf
    have : (front ++ f :: back).findSome? (fun factory => factory siteUrl d) =
        (f :: back).findSome? (fun factory => factory siteUrl d) :=
      findSome?_append_of_forall_none _ front (f :: back) hfront
    simp [resolve, this, List.findSome?_cons, hf]
  · intro facs hfacs
    have : facs.findSome? (fun factory => factory siteUrl d) = none := by
      have := findSome?_append_of_forall_none (fun factory => factory siteUrl d)
        facs [] hfacs
      simpa using this
    simp only [resolve, this]

/-- Witness for C1: a concrete registered factory list, where the first
factory declines and the second matches, selects the second factory's
resolver; and with no factories a device-code descriptor selects the
device-code resolver. -/
theorem resolve_dispatch_witness :
    resolve ([fun _ _ => none, fun _ _ => some (.custom "mine")] :
        List ResolverFactory) "https://contoso.sharepoint.com"
      (some { clientId := "c", tenantId := some "t",
              authMethod := some "deviceCode" }) = .ok (.custom "mine") ∧
    resolve [] "https://contoso.sharepoint.com"
      (some { clientId := "c", tenantId := some "t",
              authMethod := some "deviceCode" }) = .ok .deviceCode := by
  constructor
  · exact (resolve_dispatch "https://contoso.sharepoint.com" _).1
      [fun _ _ => none] [] (fun _ _ => some (.custom "mine")) (.custom "mine")
      (by intro g hg; simp at hg; subst hg; rfl) rfl
  · have h := (resolve_dispatch "https://contoso.sharepoint.com"
      { clientId := "c", tenantId := some "t",
        authMethod := some "deviceCode" }).2.1 [] (by intro g hg; simp at hg)
    simpa [isDeviceCode] using h

/-- Claim C3 counterexample: the descriptor with authMethod "deviceCode", a
tenantId and no clientSecret satisfies both isDeviceCode (explicit tag) and
isInteractiveBrowser (legacy heuristic: tenantId present, no deviceFlow, no
clientSecret), so it is not the case that exactly one discriminator matches
every descriptor. -/
theorem discriminators_overlap :
    isDeviceCode { clientId := "c", tenantId := some "t",
                   authMethod := some "deviceCode" } = true ∧
    isInteractiveBrowser { clientId := "c", tenantId := some "t",
                           authMethod := some "deviceCode" } = true := by
  constructor <;> decide

/-- Claim C3 amended: when the explicit authMethod tag is absent, at most one
of the three discriminators matches a descriptor, so the legacy heuristics by
themselves are never ambiguous; ambiguity only arises between an explicit tag
and another variant's legacy heuristic, and the factory's fixed first-match
order resolves it. -/
theorem discriminators_mutually_exclusive_without_tag (o : AuthOptions)
    (h : o.authMethod = none) :
    (¬(isDeviceCode o = true ∧ isInteractiveBrowser o = true)) ∧
    (¬(isDeviceCode o = true ∧ isAppOnlyOnline o = true)) ∧
    (¬(isInteractiveBrowser o = true ∧ isAppOnlyOnline o = true)) := by
  simp only [isDeviceCode, isInteractiveBrowser, isAppOnlyOnline, h]
  refine ⟨?_, ?_, ?_⟩ <;>
    · rintro ⟨h1, h2⟩
      simp_all

/-! ## Token cache -/

/-- Modelled from the spec: the token Cache class
(src/src/auth/utils/Cache.ts) is referenced by every resolver but its source
is not under src/.  Spec section 4.1: get(key) returns the value or absent,
treating an entry whose expiresAt has passed as absent and dropping it;
set(key, value, ttlSeconds) stores the value until now + ttl; remove(key)
deletes the entry.  Times are in milliseconds (Date.now()); ttl is in
seconds. -/
abbrev Cache := List (String × String × Int)

/-- Modelled from the spec: remove(key). -/
def Cache.removeKey (c : Cache) (k : String) : Cache :=
  c.filter (fun e => e.1 ≠ k)

/-- Modelled from the spec: set(key, value, ttlSeconds) at time now (ms);
overwrites any previous entry under the key. -/
def Cache.set (c : Cache) (k v : String) (ttlSeconds now : Int) : Cache :=
  (k, v, now + ttlSeconds * 1000) :: c.removeKey k

/-- Modelled from the spec: get(key) at time now (ms); returns the cached
value when the entry has not expired, and drops the entry (returning absent)
when its expiresAt has passed.  Returns the possibly updated cache
alongside. -/
def Cache.get (c : Cache) (k : String) (now : Int) : Option String × Cache :=
  match c.find? (fun e => e.1 = k) with
  | some (_, v, expiresAt) =>
    if now > expiresAt then (none, c.removeKey k)
    else (some v, c)
  | none => (none, c)

/-! ## Cache keys (claim C9) -/

/-- DeviceCodeResolver.getAuth line 40: the cache key is
`hostname@clientId`. -/
def deviceCodeCacheKey (sharepointhostname clientId : String) : String :=
  sharepointhostname ++ "@" ++ clientId

/-- InteractiveBrowserResolver.getAuth line 37: the cache key is
`tenantDomain@clientId:interactive`. -/
def interactiveCacheKey (tenantDomain clientId : String) : String :=
  tenantDomain ++ "@" ++ clientId ++ ":interactive"

/-- OnlineAppOnlyCredentials.getAuth (client-secret variant) line 24: the
cache key is `hostname@clientSecret@clientId`. -/
def appOnlySecretCacheKey (sharepointhostname clientSecret clientId : String) :
    String :=
  sharepointhostname ++ "@" ++ clientSecret ++ "@" ++ clientId

/-- OnlineAppOnlyCredentials.getAuth (certificate variant) line 115: the
cache key is `hostname@pfxCertificatePath@clientId`. -/
def appOnlyCertCacheKey (sharepointhostname pfxCertificatePath clientId : String) :
    String :=
  sharepointhostname ++ "@" ++ pfxCertificatePath ++ "@" ++ clientId

/-- Refresh tokens are stored and looked up under the access-token key plus a
`:refresh` suffix (DeviceCodeResolver lines 53, 139, 180;
InteractiveBrowserResolver lines 50, 120, 211). -/
def refreshKeyOf (cacheKey : String) : String :=
  cacheKey ++ ":refresh"

theorem string_append_right_cancel {a b c : String} (h : a ++ c = b ++ c) :
    a = b := by
  apply String.ext
  have hd : a.data ++ c.data = b.data ++ c.data := by
    have := congrArg String.data h
    simpa using this
  exact List.append_cancel_right hd

theorem string_append_left_cancel {a b c : String} (h : a ++ b = a ++ c) :
    b = c := by
  apply String.ext
  have hd : a.data ++ b.data = a.data ++ c.data := by
    have := congrArg String.data h
    simpa using this
  exact List.append_cancel_left hd

/-- The IDeviceCodeOptions the device-code resolver is constructed with
(DeviceCodeResolver.ts lines 8-12). -/
structure DeviceCodeOptions where
  clientId : String
  tenantId : String
  clientSecret : Option String := none
  deriving DecidableEq, Repr

/-- DeviceCodeResolver.getAuth lines 39-40: the key computed from the site
hostname and the resolver's options is `hostname@clientId`; no other field of
the options is consulted. -/
def DeviceCodeResolver.cacheKeyOf (sharepointhostname : String)
    (o : DeviceCodeOptions) : String :=
  deviceCodeCacheKey sharepointhostname o.clientId

/-- Claim C9 counterexample: the device-code cache key contains no credential
fingerprint and no flow tag: two device-code configurations that differ only
in their client secret (the only credential material in the descriptor)
produce the identical cache key `contoso.sharepoint.com@cid`, so the
device-code key is not a composite of host, client identifier and a
credential fingerprint. -/
theorem deviceCodeCacheKey_ignores_credential :
    (⟨"cid", "tid", some "secretA"⟩ : DeviceCodeOptions) ≠
      (⟨"cid", "tid", some "secretB"⟩ : DeviceCodeOptions) ∧
    DeviceCodeResolver.cacheKeyOf "contoso.sharepoint.com"
        ⟨"cid", "tid", some "secretA"⟩ =
      DeviceCodeResolver.cacheKeyOf "contoso.sharepoint.com"
        ⟨"cid", "tid", some "secretB"⟩ ∧
    DeviceCodeResolver.cacheKeyOf "contoso.sharepoint.com"
        ⟨"cid", "tid", some "secretA"⟩ = "contoso.sharepoint.com@cid" := by
  refine ⟨by decide, rfl, rfl⟩

/-- Claim C9 amended: the interactive key is host, client id and the
`:interactive` flow tag; the app-only keys embed the client secret or the
certificate path as a credential fingerprint (different secrets or paths give
different keys); refresh tokens live under the access key plus `:refresh`;
but the device-code key is only `host@clientId`, with no credential
fingerprint or flow tag component. -/
theorem cacheKey_shapes (h c p s : String) :
    interactiveCacheKey h c = h ++ "@" ++ c ++ ":interactive" ∧
    appOnlySecretCacheKey h s c = h ++ "@" ++ s ++ "@" ++ c ∧
    appOnlyCertCacheKey h p c = h ++ "@" ++ p ++ "@" ++ c ∧
    (∀ s1 s2 : String, s1 ≠ s2 →
      appOnlySecretCacheKey h s1 c ≠ appOnlySecretCacheKey h s2 c) ∧
    (∀ p1 p2 : String, p1 ≠ p2 →
      appOnlyCertCacheKey h p1 c ≠ appOnlyCertCacheKey h p2 c) ∧
    refreshKeyOf (deviceCodeCacheKey h c) = h ++ "@" ++ c ++ ":refresh" ∧
    deviceCodeCacheKey h c = h ++ "@" ++ c := by
  refine ⟨rfl, rfl, rfl, ?_, ?_, by simp [refreshKeyOf, deviceCodeCacheKey], rfl⟩
  · intro s1 s2 hne heq
    apply hne
    have h1 : (h ++ "@" ++ s1) ++ ("@" ++ c) = (h ++ "@" ++ s2) ++ ("@" ++ c) := by
      simpa [appOnlySecretCacheKey, String.append_assoc] using heq
    have h2 : h ++ "@" ++ s1 = h ++ "@" ++ s2 := string_append_right_cancel h1
    have h3 : (h ++ "@") ++ s1 = (h ++ "@") ++ s2 := by
      simpa [String.append_assoc] using h2
    exact string_append_left_cancel h3
  · intro p1 p2 hne heq
    apply hne
    have h1 : (h ++ "@" ++ p1) ++ ("@" ++ c) = (h ++ "@" ++ p2) ++ ("@" ++ c) := by
      simpa [appOnlyCertCacheKey, String.append_assoc] using heq
    have h2 : h ++ "@" ++ p1 = h ++ "@" ++ p2 := string_append_right_cancel h1
    have h3 : (h ++ "@") ++ p1 = (h ++ "@") ++ p2 := by
      simpa [String.append_assoc] using h2
    exact string_append_left_cancel h3

/-- Witness for C9 amended: concrete key shapes, and two distinct secrets
give distinct app-only keys. -/
theorem cacheKey_shapes_witness :
    appOnlySecretCacheKey "contoso.sharepoint.com" "s1" "cid" ≠
      appOnlySecretCacheKey "contoso.sharepoint.com" "s2" "cid" ∧
    interactiveCacheKey "contoso.sharepoint.com" "cid" =
      "contoso.sharepoint.com@cid:interactive" := by
  refine ⟨?_, ?_⟩
  · exact (cacheKey_shapes "contoso.sharepoint.com" "cid" "p" "s").2.2.2.1
      "s1" "s2" (by decide)
  · exact (cacheKey_shapes "contoso.sharepoint.com" "cid" "p" "s").1

/-! ## URL helpers and scope building (OnlineResolver.buildScopes,
src/src/auth/authResolverRegistry.ts second document lines 156-176) -/

/-- Character-level test that `p` begins the list `l` (used to model
JavaScript String.prototype.split on a multi-character separator). -/
def startsWithChars : List Char → List Char → Bool
  | [], _ => true
  | _ :: _, [] => false
  | p :: ps, c :: cs => p = c && startsWithChars ps cs

/-- Characters strictly before the first occurrence of `sep` (the whole list
when `sep` does not occur): the first component of JavaScript
`s.split(sep)`. -/
def takeUntilSub (sep : List Char) : List Char → List Char
  | [] => []
  | c :: cs =>
    if startsWithChars sep (c :: cs) then []
    else c :: takeUntilSub sep cs

/-- Characters after the first occurrence of `sep` ([] when absent). -/
def dropPastSub (sep : List Char) : List Char → List Char
  | [] => []
  | c :: cs =>
    if startsWithChars sep (c :: cs) then (c :: cs).drop sep.length
    else dropPastSub sep cs

/-- `new URL(url).hostname` for the absolute https URLs this code builds and
receives: the text after "://" and before the next "/". -/
def hostnameOf (url : String) : String :=
  String.mk (takeUntilSub ['/'] (dropPastSub "://".toList url.toList))

/-- OnlineResolver.buildScopes lines 157-158 (and the same idiom at
InteractiveBrowserResolver.getAuth line 36): the tenant root domain is the
hostname text before ".sharepoint.com" with ".sharepoint.com" appended. -/
def tenantDomainOf (hostname : String) : String :=
  String.mk (takeUntilSub ".sharepoint.com".toList hostname.toList) ++
    ".sharepoint.com"

/-- First-occurrence-order deduplication, the behaviour of JavaScript
`Array.from(new Set(l))` (OnlineResolver.buildScopes line 171); `seen` is the
set of elements already emitted. -/
def jsSetDedup (seen : List String) : List String → List String
  | [] => []
  | x :: xs =>
    if x ∈ seen then jsSetDedup seen xs
    else x :: jsSetDedup (x :: seen) xs

/-- OnlineResolver.buildScopes lines 156-176, as the list of scope tokens
before joining.  customScopes models the `string | string[]` parameter with a
single string wrapped in a one-element list; a missing (or JavaScript-falsy)
argument is none. -/
def buildScopesList (siteUrl : String) (customScopes : Option (List String))
    (includeOfflineAccess : Bool) : List String :=
  let tenantDomain := tenantDomainOf (hostnameOf siteUrl)
  let defaultScopes :=
    ["https://" ++ tenantDomain ++ "/.default"] ++
      (if includeOfflineAccess then ["offline_access"] else [])
  match customScopes with
  | some customScopesArray => jsSetDedup [] (defaultScopes ++ customScopesArray)
  | none => defaultScopes

/-- OnlineResolver.buildScopes: the scope tokens joined with single
spaces. -/
def buildScopes (siteUrl : String) (customScopes : Option (List String))
    (includeOfflineAccess : Bool) : String :=
  String.intercalate " " (buildScopesList siteUrl customScopes includeOfflineAccess)

theorem jsSetDedup_not_mem_seen :
    ∀ (l seen : List String) (x : String), x ∈ jsSetDedup seen l → x ∉ seen := by
  intro l
  induction l with
  | nil => intro seen x hx; simp [jsSetDedup] at hx
  | cons a as ih =>
    intro seen x hx
    by_cases ha : a ∈ seen
    · simp [jsSetDedup, ha] at hx
      exact ih seen x hx
    · simp [jsSetDedup, ha] at hx
      rcases hx with rfl | hx
      · exact ha
      · have := ih (a :: seen) x hx
        intro hmem
        exact this (List.mem_cons_of_mem a hmem)

theorem jsSetDedup_nodup :
    ∀ (l seen : List String), (jsSetDedup seen l).Nodup := by
  intro l
  induction l with
  | nil => intro seen; simp [jsSetDedup]
  | cons a as ih =>
    intro seen
    by_cases ha : a ∈ seen
    · simp [jsSetDedup, ha]
      exact ih seen
    · simp [jsSetDedup, ha]
      refine ⟨?_, ih (a :: seen)⟩
      intro hmem
      exact jsSetDedup_not_mem_seen as (a :: seen) a hmem
        (List.mem_cons_self a seen)

/-- Claim C7: buildScopes yields the tenant-root default scope, then
offline_access unless suppressed, merged and de-duplicated with any custom
scopes and joined with single spaces: the concrete site evaluates as the spec
states, includeOfflineAccess false omits the suffix, a custom scope equal to
the default creates no duplicate, and the token list is duplicate-free for
all inputs. -/
theorem buildScopes_spec :
    buildScopes "https://contoso.sharepoint.com/sites/a" none true =
      "https://contoso.sharepoint.com/.default offline_access" ∧
    buildScopes "https://contoso.sharepoint.com/sites/a" none false =
      "https://contoso.sharepoint.com/.default" ∧
    buildScopes "https://contoso.sharepoint.com/sites/a"
        (some ["https://contoso.sharepoint.com/.default"]) true =
      "https://contoso.sharepoint.com/.default offline_access" ∧
    (∀ (siteUrl : String) (customScopes : Option (List String))
        (includeOfflineAccess : Bool),
      (buildScopesList siteUrl customScopes includeOfflineAccess).Nodup) := by
  refine ⟨by decide, by decide, by decide, ?_⟩
  intro siteUrl customScopes includeOfflineAccess
  match customScopes with
  | some cs => exact jsSetDedup_nodup _ []
  | none =>
    cases includeOfflineAccess with
    | false => simp [buildScopesList]
    | true =>
      have hne : ("https://" ++ tenantDomainOf (hostnameOf siteUrl) ++
          "/.default") ≠ "offline_access" := by
        intro heq
        have hlen := congrArg String.length heq
        rw [String.length_append, String.length_append] at hlen
        have h1 : ("https://").length = 8 := rfl
        have h2 : ("/.default").length = 9 := rfl
        have h3 : ("offline_access").length = 14 := rfl
        omega
      simp [buildScopesList, hne]

/-! ## Hosting environments and authority endpoints (claim C8) -/

/-- The sovereign-cloud variants mapped by InitEndpointsMappings in every
online resolver (src/src/auth/HostingEnvironment.ts is referenced but not
under src/; the five members below are exactly the ones the resolvers
map). -/
inductive HostingEnvironment where
  | Production
  | China
  | German
  | USDefence
  | USGovernment
  deriving DecidableEq, Repr

/-- InitEndpointsMappings, identical in DeviceCodeResolver lines 224-230,
InteractiveBrowserResolver and both OnlineAppOnlyCredentials variants: the
endpointsMappings map from hosting environment to authority host. -/
def endpointsMappings : HostingEnvironment → Option String
  | .Production => some "login.microsoftonline.com"
  | .China => some "login.chinacloudapi.cn"
  | .German => some "login.microsoftonline.de"
  | .USDefence => some "login.microsoftonline.us"
  | .USGovernment => some "login.microsoftonline.us"

/-- OnlineResolver.getAuthEndpoint: the mapped host, defaulting to
login.microsoftonline.com when unmatched. -/
def getAuthEndpoint (env : HostingEnvironment) : String :=
  (endpointsMappings env).getD "login.microsoftonline.com"

/-- DeviceCodeResolver.initiateDeviceCodeFlow line 66: devicecode endpoint
URL, built on getAuthEndpoint. -/
def deviceCodeEndpointUrl (env : HostingEnvironment) (tenantId : String) :
    String :=
  "https://" ++ getAuthEndpoint env ++ "/" ++ tenantId ++
    "/oauth2/v2.0/devicecode"

/-- DeviceCodeResolver.pollForToken line 94 and refreshAccessToken line 159:
token endpoint URL, built on getAuthEndpoint. -/
def deviceCodeTokenUrl (env : HostingEnvironment) (tenantId : String) :
    String :=
  "https://" ++ getAuthEndpoint env ++ "/" ++ tenantId ++ "/oauth2/v2.0/token"

/-- Certificate variant, getAppOnlyAccessTokenWithCertificate (unnamed
part_004 second document lines 148-149): token endpoint URL, built on
getAuthEndpoint. -/
def appOnlyCertTokenUrl (env : HostingEnvironment) (tenantId : String) :
    String :=
  "https://" ++ getAuthEndpoint env ++ "/" ++ tenantId ++ "/oauth2/v2.0/token"

/-- Client-secret variant, getAppOnlyAccessTokenWithResource (unnamed
part_004 line 56): the token URL hardcodes login.microsoftonline.com even
though the resolver instance carries a hosting environment (the env parameter
mirrors that unused instance state). -/
def appOnlySecretTokenUrl (_env : HostingEnvironment) (tenantId : String) :
    String :=
  "https://login.microsoftonline.com/" ++ tenantId ++ "/oauth2/v2.0/token"

/-- InteractiveBrowserResolver.initiateInteractiveBrowserFlow line 72: the
authorize URL (before its query string) hardcodes login.microsoftonline.com;
the env parameter mirrors the unused hosting-environment instance state. -/
def interactiveAuthorizeUrl (_env : HostingEnvironment) (tenantId : String) :
    String :=
  "https://login.microsoftonline.com/" ++ tenantId ++ "/oauth2/v2.0/authorize"

/-- InteractiveBrowserResolver.exchangeCodeForToken line 157 and
refreshAccessToken line 189: the token URL hardcodes
login.microsoftonline.com. -/
def interactiveTokenUrl (_env : HostingEnvironment) (tenantId : String) :
    String :=
  "https://login.microsoftonline.com/" ++ tenantId ++ "/oauth2/v2.0/token"

/-- Claim C8 counterexample: for a site in the China hosting environment the
authority selected for the environment is login.chinacloudapi.cn, yet the
authorize URL built by the interactive-browser resolver and the token URL
built by the client-secret app-only resolver use host
login.microsoftonline.com, so not every endpoint URL uses the
environment-selected authority host. -/
theorem endpoint_urls_ignore_environment :
    getAuthEndpoint .China = "login.chinacloudapi.cn" ∧
    hostnameOf (interactiveAuthorizeUrl .China "tid") =
      "login.microsoftonline.com" ∧
    hostnameOf (appOnlySecretTokenUrl .China "tid") =
      "login.microsoftonline.com" ∧
    hostnameOf (interactiveAuthorizeUrl .China "tid") ≠ getAuthEndpoint .China := by
  refine ⟨rfl, by decide, by decide, by decide⟩

/-- Claim C8 amended: the devicecode and token URLs of the device-code
resolver and the token URL of the certificate app-only variant use the
authority host selected for the hosting environment
(login.microsoftonline.com for Production, login.chinacloudapi.cn for China,
login.microsoftonline.de for Germany, login.microsoftonline.us for US
Government and US Defence); but the interactive-browser authorize and token
URLs and the client-secret app-only token URL always use
login.microsoftonline.com regardless of environment. -/
theorem endpoint_url_hosts (env : HostingEnvironment) (tenantId : String) :
    (∃ rest, deviceCodeEndpointUrl env tenantId =
      "https://" ++ getAuthEndpoint env ++ "/" ++ rest) ∧
    (∃ rest, deviceCodeTokenUrl env tenantId =
      "https://" ++ getAuthEndpoint env ++ "/" ++ rest) ∧
    (∃ rest, appOnlyCertTokenUrl env tenantId =
      "https://" ++ getAuthEndpoint env ++ "/" ++ rest) ∧
    (∃ rest, interactiveAuthorizeUrl env tenantId =
      "https://login.microsoftonline.com/" ++ rest) ∧
    (∃ rest, interactiveTokenUrl env tenantId =
      "https://login.microsoftonline.com/" ++ rest) ∧
    (∃ rest, appOnlySecretTokenUrl env tenantId =
      "https://login.microsoftonline.com/" ++ rest) ∧
    getAuthEndpoint .Production = "login.microsoftonline.com" ∧
    getAuthEndpoint .China = "login.chinacloudapi.cn" ∧
    getAuthEndpoint .German = "login.microsoftonline.de" ∧
    getAuthEndpoint .USGovernment = "login.microsoftonline.us" ∧
    getAuthEndpoint .USDefence = "login.microsoftonline.us" := by
  refine ⟨⟨tenantId ++ "/oauth2/v2.0/devicecode", ?_⟩,
    ⟨tenantId ++ "/oauth2/v2.0/token", ?_⟩,
    ⟨tenantId ++ "/oauth2/v2.0/token", ?_⟩,
    ⟨tenantId ++ "/oauth2/v2.0/authorize", ?_⟩,
    ⟨tenantId ++ "/oauth2/v2.0/token", ?_⟩,
    ⟨tenantId ++ "/oauth2/v2.0/token", ?_⟩,
    rfl, rfl, rfl, rfl, rfl⟩ <;>
  simp [deviceCodeEndpointUrl, deviceCodeTokenUrl, appOnlyCertTokenUrl,
    interactiveAuthorizeUrl, interactiveTokenUrl, appOnlySecretTokenUrl,
    String.append_assoc]

/-! ## Token responses and the device-code flow
(src/src/auth/resolvers/DeviceCodeResolver.ts) -/

/-- ITokenResponse (DeviceCodeResolver.ts lines 23-28): the refresh token may
be absent in practice and is guarded with a truthiness check before caching,
so it is an Option here. -/
structure TokenResponse where
  access_token : String
  refresh_token : Option String := none
  expires_in : Int := 0
  deriving DecidableEq, Repr

/-- A token-endpoint response as classified by the code: either it has a
truthy `error` field, or it is a token response. -/
inductive OAuthResp where
  | error (error : String)
  | tok (t : TokenResponse)
  deriving DecidableEq, Repr

/-- IDeviceCodeResponse (DeviceCodeResolver.ts lines 14-21); interval is an
Option because the code defaults it with `interval || 5`. -/
structure DeviceCodeResponse where
  device_code : String := ""
  user_code : String := ""
  verification_uri : String := ""
  expires_in : Int := 0
  interval : Option Int := none
  message : String := ""
  deriving DecidableEq, Repr

/-- Labels for the network requests a flow issues, in order. -/
inductive ReqKind where
  | deviceCodeInit
  | devicePoll
  | refreshGrant
  | tokenExchange
  | tokenPost
  deriving DecidableEq, Repr

/-- Outcome of the device-code polling promise: deadline expiry, terminal
provider error, or resolution with the Authorization header value. -/
inductive PollOutcome where
  | expired
  | failed (message : String)
  | ok (authHeader : String)
  deriving DecidableEq, Repr

/-- JavaScript `v || d` on a number that may be absent: absence and 0 both
give the default. -/
def jsOrDefaultInt (v : Option Int) (d : Int) : Int :=
  match v with
  | none => d
  | some x => if x = 0 then d else x

/-- DeviceCodeResolver.pollForToken lines 98-154, driven by the oracle list
`resps` of token-endpoint responses (one per poll request).  Each iteration
first checks the wall-clock deadline, then issues one poll request and
classifies the response: authorization_pending reschedules after intervalMs,
slow_down after intervalMs + 5000, any other error rejects terminally, and a
token response caches the access token with TTL max(expires_in - 300, 60)
and any refresh token for 90 days, then resolves with the Bearer header.
Returns none when the oracle runs out of responses; `polls` counts issued
poll requests. -/
def pollLoop (key : String) (resps : List OAuthResp) (cache : Cache)
    (now expiresAt intervalMs : Int) (polls : Nat) :
    Option (PollOutcome × Cache × Nat) :=
  if now > expiresAt then some (.expired, cache, polls)
  else
    match resps with
    | [] => none
    | .error e :: rest =>
      if e = "authorization_pending" then
        pollLoop key rest cache (now + intervalMs) expiresAt intervalMs (polls + 1)
      else if e = "slow_down" then
        pollLoop key rest cache (now + intervalMs + 5000) expiresAt intervalMs (polls + 1)
      else some (.failed e, cache, polls + 1)
    | .tok t :: _ =>
      let c1 := cache.set key t.access_token (max (t.expires_in - 300) 60) now
      let c2 :=
        match t.refresh_token with
        | some rt => c1.set (key ++ ":refresh") rt (90 * 24 * 60 * 60) now
        | none => c1
      some (.ok ("Bearer " ++ t.access_token), c2, polls + 1)

/-- DeviceCodeResolver.initiateDeviceCodeFlow lines 63-90: one devicecode
POST, then polling with interval `(interval || 5) * 1000` ms against the
deadline now + expires_in * 1000.  The request trace is the devicecode POST
followed by one devicePoll per issued poll request. -/
def initiateDeviceCodeFlow (key : String) (dcResp : DeviceCodeResponse)
    (pollResps : List OAuthResp) (cache : Cache) (now : Int) :
    Option (PollOutcome × Cache × List ReqKind) :=
  let intervalMs := jsOrDefaultInt dcResp.interval 5 * 1000
  let expiresAt := now + dcResp.expires_in * 1000
  match pollLoop key pollResps cache now expiresAt intervalMs 0 with
  | some (o, c, n) => some (o, c, .deviceCodeInit :: List.replicate n .devicePoll)
  | none => none

/-- DeviceCodeResolver.refreshAccessToken lines 157-203: one refresh-grant
POST; an OAuth error response evicts the :refresh cache entry and re-enters
the device-code flow, a token response caches with the usual TTLs and
resolves. -/
def DeviceCode.refreshAccessToken (key : String) (refreshResp : OAuthResp)
    (dcResp : DeviceCodeResponse) (pollResps : List OAuthResp)
    (cache : Cache) (now : Int) : Option (PollOutcome × Cache × List ReqKind) :=
  match refreshResp with
  | .error _ =>
    let c := cache.removeKey (key ++ ":refresh")
    match initiateDeviceCodeFlow key dcResp pollResps c now with
    | some (o, c', reqs) => some (o, c', .refreshGrant :: reqs)
    | none => none
  | .tok t =>
    let c1 := cache.set key t.access_token (max (t.expires_in - 300) 60) now
    let c2 :=
      match t.refresh_token with
      | some rt => c1.set (key ++ ":refresh") rt (90 * 24 * 60 * 60) now
      | none => c1
    some (.ok ("Bearer " ++ t.access_token), c2, [.refreshGrant])

/-- DeviceCodeResolver.getAuth lines 38-61: cached access token wins, then a
cached refresh token triggers the refresh grant, otherwise the device-code
flow is initiated. -/
def DeviceCode.getAuth (sharepointhostname clientId : String)
    (refreshResp : OAuthResp) (dcResp : DeviceCodeResponse)
    (pollResps : List OAuthResp) (cache : Cache) (now : Int) :
    Option (PollOutcome × Cache × List ReqKind) :=
  let cacheKey := deviceCodeCacheKey sharepointhostname clientId
  match cache.get cacheKey now with
  | (some cachedToken, c1) => some (.ok ("Bearer " ++ cachedToken), c1, [])
  | (none, c1) =>
    match c1.get (cacheKey ++ ":refresh") now with
    | (some _, c2) =>
      DeviceCode.refreshAccessToken cacheKey refreshResp dcResp pollResps c2 now
    | (none, c2) => initiateDeviceCodeFlow cacheKey dcResp pollResps c2 now

/-! ## Interactive-browser flow
(src/src/auth/resolvers/InteractiveBrowserResolver.ts) -/

/-- The single expected loopback callback request, as classified by the
handler (lines 87-141): a provider-reported error parameter, an invalid
response (missing code or state mismatch), or a valid code. -/
inductive CallbackResult where
  | cbError (error : String)
  | cbInvalid
  | cbValid (code : String)
  deriving DecidableEq, Repr

/-- Outcome of a resolver getAuth promise: resolution with the Authorization
header value, or rejection with a message. -/
inductive AuthOutcome where
  | ok (authHeader : String)
  | err (message : String)
  deriving DecidableEq, Repr

/-- InteractiveBrowserResolver.initiateInteractiveBrowserFlow lines 60-154:
on a provider error or invalid callback the promise rejects with no token
request; on a valid code the code is exchanged (one token POST), an error
response rejects, and a token response caches the access token with TTL
max(expires_in - 300, 60) and any refresh token for 90 days, then resolves
with the Bearer header. -/
def InteractiveBrowser.initiateFlow (key : String) (cb : CallbackResult)
    (exchResp : OAuthResp) (cache : Cache) (now : Int) :
    AuthOutcome × Cache × List ReqKind :=
  match cb with
  | .cbError e => (.err ("Authentication failed: " ++ e), cache, [])
  | .cbInvalid => (.err "Invalid authentication response", cache, [])
  | .cbValid _ =>
    match exchResp with
    | .error e => (.err ("Token exchange failed: " ++ e), cache, [.tokenExchange])
    | .tok t =>
      let c1 := cache.set key t.access_token (max (t.expires_in - 300) 60) now
      let c2 :=
        match t.refresh_token with
        | some rt => c1.set (key ++ ":refresh") rt (90 * 24 * 60 * 60) now
        | none => c1
      (.ok ("Bearer " ++ t.access_token), c2, [.tokenExchange])

/-- InteractiveBrowserResolver.refreshAccessToken lines 188-233: one
refresh-grant POST; an OAuth error response evicts the :refresh cache entry
and re-enters the interactive flow, a token response caches with the usual
TTLs and resolves. -/
def InteractiveBrowser.refreshAccessToken (key : String)
    (refreshResp : OAuthResp) (cb : CallbackResult) (exchResp : OAuthResp)
    (cache : Cache) (now : Int) : AuthOutcome × Cache × List ReqKind :=
  match refreshResp with
  | .error _ =>
    let c := cache.removeKey (key ++ ":refresh")
    let r := InteractiveBrowser.initiateFlow key cb exchResp c now
    (r.1, r.2.1, .refreshGrant :: r.2.2)
  | .tok t =>
    let c1 := cache.set key t.access_token (max (t.expires_in - 300) 60) now
    let c2 :=
      match t.refresh_token with
      | some rt => c1.set (key ++ ":refresh") rt (90 * 24 * 60 * 60) now
      | none => c1
    (.ok ("Bearer " ++ t.access_token), c2, [.refreshGrant])

/-- InteractiveBrowserResolver.getAuth lines 34-58: cached access token wins,
then a cached refresh token triggers the refresh grant, otherwise the
interactive flow is initiated. -/
def InteractiveBrowser.getAuth (tenantDomain clientId : String)
    (refreshResp : OAuthResp) (cb : CallbackResult) (exchResp : OAuthResp)
    (cache : Cache) (now : Int) : AuthOutcome × Cache × List ReqKind :=
  let cacheKey := interactiveCacheKey tenantDomain clientId
  match cache.get cacheKey now with
  | (some cachedToken, c1) => (.ok ("Bearer " ++ cachedToken), c1, [])
  | (none, c1) =>
    match c1.get (cacheKey ++ ":refresh") now with
    | (some _, c2) =>
      InteractiveBrowser.refreshAccessToken cacheKey refreshResp cb exchResp c2 now
    | (none, c2) => InteractiveBrowser.initiateFlow cacheKey cb exchResp c2 now

/-! ## App-only client-credentials flow (unnamed part_004 first document,
class OnlineAppOnlyCredentials with a client secret; second document, the
certificate variant) -/

/-- The token-endpoint response shape checked by
getAppOnlyAccessTokenWithResource lines 68-77: access_token may be missing
(rejection) and expires_in may be missing (defaulted with
`expires_in || 3599`). -/
structure AppOnlyTokenResponse where
  access_token : Option String := none
  expires_in : Option Int := none
  deriving DecidableEq, Repr

/-- OnlineAppOnlyCredentials.getAuth lines 22-48 with
getAppOnlyAccessTokenWithResource lines 54-77 (client-secret variant): cache
hit short-circuits; on a miss one token POST is issued, a response without an
access token rejects, and otherwise the token is cached with TTL
max((expires_in || 3599) - 300, 60) and the Bearer header returned. -/
def OnlineAppOnlyCredentials.getAuth (sharepointhostname clientSecret clientId : String)
    (resp : AppOnlyTokenResponse) (cache : Cache) (now : Int) :
    AuthOutcome × Cache × List ReqKind :=
  let cacheKey := appOnlySecretCacheKey sharepointhostname clientSecret clientId
  match cache.get cacheKey now with
  | (some cachedToken, c1) => (.ok ("Bearer " ++ cachedToken), c1, [])
  | (none, c1) =>
    match resp.access_token with
    | some accessToken =>
      let expiresIn := jsOrDefaultInt resp.expires_in 3599
      let c2 := c1.set cacheKey accessToken (max (expiresIn - 300) 60) now
      (.ok ("Bearer " ++ accessToken), c2, [.tokenPost])
    | none => (.err "No access token in response", c1, [.tokenPost])

/-- The certificate variant (part_004 second document, getAuth lines 113-139
with getAppOnlyAccessTokenWithCertificate lines 177-191): identical caching
logic under the certificate-path cache key, with the same
`expires_in || 3599` default. -/
def OnlineAppOnlyCredentialsCert.getAuth (sharepointhostname pfxCertificatePath clientId : String)
    (resp : AppOnlyTokenResponse) (cache : Cache) (now : Int) :
    AuthOutcome × Cache × List ReqKind :=
  let cacheKey := appOnlyCertCacheKey sharepointhostname pfxCertificatePath clientId
  match cache.get cacheKey now with
  | (some cachedToken, c1) => (.ok ("Bearer " ++ cachedToken), c1, [])
  | (none, c1) =>
    match resp.access_token with
    | some accessToken =>
      let expiresIn := jsOrDefaultInt resp.expires_in 3599
      let c2 := c1.set cacheKey accessToken (max (expiresIn - 300) 60) now
      (.ok ("Bearer " ++ accessToken), c2, [.tokenPost])
    | none => (.err "No access token in response", c1, [.tokenPost])

/-- Count of refresh-grant requests in a request trace. -/
def countRefreshGrant (reqs : List ReqKind) : Nat :=
  reqs.countP (fun r => decide (r = ReqKind.refreshGrant))

/-- Witness for C3 amended: a concrete untagged descriptor with a client
secret matches isAppOnlyOnline but cannot simultaneously match
isDeviceCode. -/
theorem discriminators_mutually_exclusive_witness :
    ¬(isDeviceCode { clientId := "c", tenantId := some "t",
                     clientSecret := some "s" } = true ∧
      isAppOnlyOnline { clientId := "c", tenantId := some "t",
                        clientSecret := some "s" } = true) :=
  (discriminators_mutually_exclusive_without_tag
    { clientId := "c", tenantId := some "t", clientSecret := some "s" } rfl).2.1

/-- Claim C2 counterexample: an app-only token response carrying
expires_in = 0 is cached with a TTL of 3299 seconds (the cache entry of the
call at time 0 expires at 3299 * 1000 ms), because the code computes
`response.expires_in || 3599` and JavaScript treats 0 as falsy
(part_004 lines 72 and 186); the claim's formula max(0 - 300, 60) demands a
60-second TTL instead, so the claim fails at expires_in = 0. -/
theorem token_cache_ttl_counterexample :
    OnlineAppOnlyCredentials.getAuth "h" "s" "c" ⟨some "T", some 0⟩ [] 0 =
      (.ok ("Bearer " ++ "T"),
       [(appOnlySecretCacheKey "h" "s" "c", "T", 3299 * 1000)], [.tokenPost]) ∧
    max ((0 : Int) - 300) 60 = 60 ∧
    (3299 * 1000 : Int) ≠ 60 * 1000 := by
  refine ⟨by decide, by decide, by decide⟩

/-- Claim C2 amended: a successful token acquisition caches the access token
with TTL exactly max(expires_in - 300, 60) seconds in the device-code polling
loop and the interactive code exchange (which use expires_in directly), and
in the app-only client-secret resolver whenever the response expires_in is
non-zero; an app-only response with expires_in = 0 falls to the `|| 3599`
truthiness default and is cached with TTL 3299 seconds instead of 60.  Any
refresh token is cached with TTL exactly 90 days.  In particular the TTL is
3300 for expires_in 3600 and 60 for expires_in 120, and the refresh TTL is
7776000 seconds. -/
theorem token_cache_ttl (key : String) (t : TokenResponse)
    (rest : List OAuthResp) (cache : Cache) (now expiresAt intervalMs : Int)
    (polls : Nat) (h : ¬ now > expiresAt) :
    (pollLoop key (.tok t :: rest) cache now expiresAt intervalMs polls =
      some (.ok ("Bearer " ++ t.access_token),
        (match t.refresh_token with
         | some rt =>
           (cache.set key t.access_token (max (t.expires_in - 300) 60) now).set
             (key ++ ":refresh") rt (90 * 24 * 60 * 60) now
         | none =>
           cache.set key t.access_token (max (t.expires_in - 300) 60) now),
        polls + 1)) ∧
    (∀ (k2 code : String) (t2 : TokenResponse) (c2 : Cache) (n2 : Int),
      InteractiveBrowser.initiateFlow k2 (.cbValid code) (.tok t2) c2 n2 =
        (.ok ("Bearer " ++ t2.access_token),
         (match t2.refresh_token with
          | some rt =>
            (c2.set k2 t2.access_token (max (t2.expires_in - 300) 60) n2).set
              (k2 ++ ":refresh") rt (90 * 24 * 60 * 60) n2
          | none =>
            c2.set k2 t2.access_token (max (t2.expires_in - 300) 60) n2),
         [.tokenExchange])) ∧
    (∀ (host secret cid accessToken : String) (e n : Int), e ≠ 0 →
      OnlineAppOnlyCredentials.getAuth host secret cid
          ⟨some accessToken, some e⟩ [] n =
        (.ok ("Bearer " ++ accessToken),
         [(appOnlySecretCacheKey host secret cid, accessToken,
           n + max (e - 300) 60 * 1000)],
         [.tokenPost])) ∧
    (∀ (host secret cid accessToken : String) (n : Int),
      OnlineAppOnlyCredentials.getAuth host secret cid
          ⟨some accessToken, some 0⟩ [] n =
        (.ok ("Bearer " ++ accessToken),
         [(appOnlySecretCacheKey host secret cid, accessToken,
           n + 3299 * 1000)],
         [.tokenPost])) ∧
    max ((3600 : Int) - 300) 60 = 3300 ∧
    max ((120 : Int) - 300) 60 = 60 ∧
    (90 * 24 * 60 * 60 : Int) = 7776000 := by
  refine ⟨?_, fun _ _ _ _ _ => rfl, ?_, ?_, by decide, by decide, by decide⟩
  · unfold pollLoop
    rw [if_neg h]
  · intro host secret cid accessToken e n he
    simp [OnlineAppOnlyCredentials.getAuth, Cache.get, Cache.set,
      Cache.removeKey, jsOrDefaultInt, he]
  · intro host secret cid accessToken n
    simp [OnlineAppOnlyCredentials.getAuth, Cache.get, Cache.set,
      Cache.removeKey, jsOrDefaultInt]

/-- Witness for C2: a concrete successful poll caches the access token until
0 + 3300 * 1000 ms and the refresh token until 0 + 7776000 * 1000 ms. -/
theorem token_cache_ttl_witness :
    pollLoop "k" [.tok ⟨"T", some "R", 3600⟩] [] 0 10000 5000 0 =
      some (.ok ("Bearer " ++ "T"),
        (Cache.set (Cache.set [] "k" "T" (max ((3600 : Int) - 300) 60) 0)
          ("k" ++ ":refresh") "R" (90 * 24 * 60 * 60) 0),
        1) :=
  (token_cache_ttl "k" ⟨"T", some "R", 3600⟩ [] [] 0 10000 5000 0 (by decide)).1

/-- Claim C4: in the device-code polling loop an authorization_pending
response schedules the next poll after the interval, slow_down after
interval + 5000 ms, any other error rejects terminally, a token response
resolves with the Bearer header, and once the deadline has passed the loop
aborts with the device-code-expired failure; the default interval is 5
seconds; and for the response sequence [authorization_pending,
authorization_pending, success T] at interval 5 s exactly 3 poll requests are
issued and the result header is Bearer T. -/
theorem device_code_polling (key : String) (rest : List OAuthResp)
    (cache : Cache) (now expiresAt intervalMs : Int) (polls : Nat) :
    (¬ now > expiresAt →
      pollLoop key (.error "authorization_pending" :: rest) cache now
          expiresAt intervalMs polls =
        pollLoop key rest cache (now + intervalMs) expiresAt intervalMs
          (polls + 1)) ∧
    (¬ now > expiresAt →
      pollLoop key (.error "slow_down" :: rest) cache now expiresAt
          intervalMs polls =
        pollLoop key rest cache (now + intervalMs + 5000) expiresAt intervalMs
          (polls + 1)) ∧
    (∀ e, ¬ now > expiresAt → e ≠ "authorization_pending" → e ≠ "slow_down" →
      pollLoop key (.error e :: rest) cache now expiresAt intervalMs polls =
        some (.failed e, cache, polls + 1)) ∧
    (∀ t : TokenResponse, ¬ now > expiresAt → ∃ c',
      pollLoop key (.tok t :: rest) cache now expiresAt intervalMs polls =
        some (.ok ("Bearer " ++ t.access_token), c', polls + 1)) ∧
    (now > expiresAt → ∀ resps,
      pollLoop key resps cache now expiresAt intervalMs polls =
        some (.expired, cache, polls)) ∧
    (jsOrDefaultInt (some 5) 5 * 1000 = 5000 ∧
      jsOrDefaultInt none 5 * 1000 = 5000) ∧
    initiateDeviceCodeFlow "contoso.sharepoint.com@cid"
        ⟨"devc", "usrc", "https://aka.ms/devicelogin", 900, some 5, "msg"⟩
        [.error "authorization_pending", .error "authorization_pending",
         .tok ⟨"T", none, 3600⟩] [] 0 =
      some (.ok ("Bearer " ++ "T"),
        [("contoso.sharepoint.com@cid", "T", 10000 + 3300 * 1000)],
        .deviceCodeInit :: List.replicate 3 .devicePoll) := by
  refine ⟨?_, ?_, ?_, ?_, ?_, by decide, by decide⟩
  · intro h
    conv_lhs => rw [pollLoop]
    rw [if_neg h]
    simp
  · intro h
    conv_lhs => rw [pollLoop]
    rw [if_neg h]
    simp
  · intro e h h1 h2
    conv_lhs => rw [pollLoop]
    rw [if_neg h]
    simp [h1, h2]
  · intro t h
    refine ⟨(match t.refresh_token with
      | some rt =>
        (cache.set key t.access_token (max (t.expires_in - 300) 60) now).set
          (key ++ ":refresh") rt (90 * 24 * 60 * 60) now
      | none =>
        cache.set key t.access_token (max (t.expires_in - 300) 60) now), ?_⟩
    unfold pollLoop
    rw [if_neg h]
  · intro h resps
    unfold pollLoop
    rw [if_pos h]

/-- Witness for C4: a concrete loop whose deadline has passed aborts with the
expired outcome without issuing a request. -/
theorem device_code_polling_witness :
    pollLoop "k" [] [] 6000 5000 5000 2 = some (.expired, [], 2) :=
  (device_code_polling "k" [] [] 6000 5000 5000 2).2.2.2.2.1 (by decide) []

theorem Cache.get_hit {c : Cache} {k : String} {now : Int} {v : String}
    (h : (Cache.get c k now).1 = some v) : Cache.get c k now = (some v, c) := by
  unfold Cache.get at h ⊢
  rcases hf : c.find? (fun e => e.1 = k) with _ | ⟨k', v', exp⟩
  · rw [hf] at h
    simp at h
  · rw [hf] at h ⊢
    by_cases hexp : now > exp
    · simp [hexp] at h
    · simp [hexp] at h ⊢
      exact h

theorem initiateDC_no_refreshGrant {key : String} {dcResp : DeviceCodeResponse}
    {pollResps : List OAuthResp} {cache : Cache} {now : Int} {o : PollOutcome}
    {c : Cache} {reqs : List ReqKind}
    (h : initiateDeviceCodeFlow key dcResp pollResps cache now = some (o, c, reqs)) :
    countRefreshGrant reqs = 0 := by
  simp only [initiateDeviceCodeFlow] at h
  rcases hp : pollLoop key pollResps cache now (now + dcResp.expires_in * 1000)
      (jsOrDefaultInt dcResp.interval 5 * 1000) 0 with _ | ⟨o', c', n⟩
  · rw [hp] at h
    simp at h
  · rw [hp] at h
    simp at h
    obtain ⟨-, -, hr⟩ := h
    subst hr
    unfold countRefreshGrant
    rw [List.countP_eq_zero]
    intro a ha
    rcases List.mem_cons.mp ha with rfl | hmem
    · simp
    · have := List.eq_of_mem_replicate hmem
      subst this
      simp

theorem initiateIB_no_refreshGrant (key : String) (cb : CallbackResult)
    (ex : OAuthResp) (c : Cache) (now : Int) :
    countRefreshGrant (InteractiveBrowser.initiateFlow key cb ex c now).2.2 = 0 := by
  cases cb <;> cases ex <;> rfl

/-- Claim C5: in the device-code and interactive-browser resolvers, a cached
refresh token whose refresh grant returns an OAuth error response causes the
:refresh entry to be evicted and the resolver to re-enter its top-level flow
(device-code or interactive respectively), and any single getAuth invocation
issues at most one refresh-grant request. -/
theorem refresh_fallback :
    (∀ (key e : String) (dcResp : DeviceCodeResponse)
        (pollResps : List OAuthResp) (cache : Cache) (now : Int),
      DeviceCode.refreshAccessToken key (.error e) dcResp pollResps cache now =
        (match initiateDeviceCodeFlow key dcResp pollResps
            (cache.removeKey (key ++ ":refresh")) now with
         | some (o, c', reqs) => some (o, c', .refreshGrant :: reqs)
         | none => none)) ∧
    (∀ (key e : String) (cb : CallbackResult) (exchResp : OAuthResp)
        (cache : Cache) (now : Int),
      InteractiveBrowser.refreshAccessToken key (.error e) cb exchResp cache now =
        ((InteractiveBrowser.initiateFlow key cb exchResp
            (cache.removeKey (key ++ ":refresh")) now).1,
         (InteractiveBrowser.initiateFlow key cb exchResp
            (cache.removeKey (key ++ ":refresh")) now).2.1,
         .refreshGrant :: (InteractiveBrowser.initiateFlow key cb exchResp
            (cache.removeKey (key ++ ":refresh")) now).2.2)) ∧
    (∀ (host cid : String) (rr : OAuthResp) (dcResp : DeviceCodeResponse)
        (pollResps : List OAuthResp) (cache : Cache) (now : Int)
        (o : PollOutcome) (c : Cache) (reqs : List ReqKind),
      DeviceCode.getAuth host cid rr dcResp pollResps cache now =
        some (o, c, reqs) → countRefreshGrant reqs ≤ 1) ∧
    (∀ (td cid : String) (rr : OAuthResp) (cb : CallbackResult)
        (ex : OAuthResp) (cache : Cache) (now : Int),
      countRefreshGrant
        (InteractiveBrowser.getAuth td cid rr cb ex cache now).2.2 ≤ 1) := by
  refine ⟨fun _ _ _ _ _ _ => rfl, fun _ _ _ _ _ _ => rfl, ?_, ?_⟩
  · intro host cid rr dcResp pollResps cache now o c reqs h
    simp only [DeviceCode.getAuth] at h
    rcases h1 : Cache.get cache (deviceCodeCacheKey host cid) now with ⟨tok?, c1⟩
    rw [h1] at h
    cases tok? with
    | some v =>
      dsimp only at h
      simp at h
      obtain ⟨-, -, hr⟩ := h
      subst hr
      simp [countRefreshGrant]
    | none =>
      dsimp only at h
      rcases h2 : Cache.get c1 (deviceCodeCacheKey host cid ++ ":refresh") now
        with ⟨rt?, c2⟩
      rw [h2] at h
      cases rt? with
      | some rt =>
        dsimp only at h
        cases rr with
        | tok t =>
          simp [DeviceCode.refreshAccessToken] at h
          obtain ⟨-, -, hr⟩ := h
          subst hr
          simp [countRefreshGrant]
        | error e =>
          simp only [DeviceCode.refreshAccessToken] at h
          rcases h3 : initiateDeviceCodeFlow (deviceCodeCacheKey host cid)
              dcResp pollResps
              (c2.removeKey (deviceCodeCacheKey host cid ++ ":refresh")) now
            with _ | ⟨o', c', reqs'⟩
          · rw [h3] at h
            simp at h
          · rw [h3] at h
            simp at h
            obtain ⟨-, -, hr⟩ := h
            subst hr
            have h0 := initiateDC_no_refreshGrant h3
            unfold countRefreshGrant at h0 ⊢
            rw [List.countP_cons, h0]
            simp
      | none =>
        dsimp only at h
        have h0 := initiateDC_no_refreshGrant h
        omega
  · intro td cid rr cb ex cache now
    simp only [InteractiveBrowser.getAuth]
    rcases h1 : Cache.get cache (interactiveCacheKey td cid) now with ⟨tok?, c1⟩
    cases tok? with
    | some v =>
      dsimp only
      simp [countRefreshGrant]
    | none =>
      dsimp only
      rcases h2 : Cache.get c1 (interactiveCacheKey td cid ++ ":refresh") now
        with ⟨rt?, c2⟩
      cases rt? with
      | some rt =>
        dsimp only
        cases rr with
        | tok t =>
          simp [InteractiveBrowser.refreshAccessToken, countRefreshGrant,
            List.countP_cons]
        | error e =>
          simp only [InteractiveBrowser.refreshAccessToken]
          have h0 := initiateIB_no_refreshGrant
            (interactiveCacheKey td cid) cb ex
            (c2.removeKey (interactiveCacheKey td cid ++ ":refresh")) now
          unfold countRefreshGrant at h0 ⊢
          rw [List.countP_cons, h0]
          simp
      | none =>
        dsimp only
        have h0 := initiateIB_no_refreshGrant (interactiveCacheKey td cid) cb ex c2 now
        omega

/-- Witness for C5: a concrete device-code getAuth call that finds a refresh
token, gets an invalid_grant refresh response, evicts the entry and
re-enters the device-code flow issues exactly one refresh-grant request. -/
theorem refresh_fallback_witness :
    countRefreshGrant [ReqKind.refreshGrant, .deviceCodeInit, .devicePoll] ≤ 1 :=
  refresh_fallback.2.2.1 "h" "c" (.error "invalid_grant")
    ⟨"d", "u", "v", 900, some 5, "m"⟩ [.tok ⟨"T", none, 3600⟩]
    [("h@c:refresh", "R", 9999999999)] 0 (.ok ("Bearer " ++ "T"))
    [("h@c", "T", 3300000)] [.refreshGrant, .deviceCodeInit, .devicePoll]
    (by decide)

/-- Claim C6: for each resolver, a getAuth call that finds an unexpired
access token under its cache key resolves with the Bearer header of the
cached token, issues no network request, and leaves the cache unchanged; and
in the client-credentials scenario a first call on a fresh cache performs one
token POST and one cache write and a second call within the cached TTL
performs zero network calls and returns the same header. -/
theorem cached_token_short_circuit :
    (∀ (host secret cid : String) (resp : AppOnlyTokenResponse)
        (cache : Cache) (now : Int) (v : String),
      (Cache.get cache (appOnlySecretCacheKey host secret cid) now).1 = some v →
      OnlineAppOnlyCredentials.getAuth host secret cid resp cache now =
        (.ok ("Bearer " ++ v), cache, [])) ∧
    (∀ (host cid : String) (rr : OAuthResp) (dcResp : DeviceCodeResponse)
        (pollResps : List OAuthResp) (cache : Cache) (now : Int) (v : String),
      (Cache.get cache (deviceCodeCacheKey host cid) now).1 = some v →
      DeviceCode.getAuth host cid rr dcResp pollResps cache now =
        some (.ok ("Bearer " ++ v), cache, [])) ∧
    (∀ (td cid : String) (rr : OAuthResp) (cb : CallbackResult)
        (ex : OAuthResp) (cache : Cache) (now : Int) (v : String),
      (Cache.get cache (interactiveCacheKey td cid) now).1 = some v →
      InteractiveBrowser.getAuth td cid rr cb ex cache now =
        (.ok ("Bearer " ++ v), cache, [])) ∧
    (∀ (host secret cid a : String) (n1 n2 : Int), ¬ n2 > n1 + 3300 * 1000 →
      OnlineAppOnlyCredentials.getAuth host secret cid ⟨some a, some 3600⟩ [] n1 =
        (.ok ("Bearer " ++ a),
         [(appOnlySecretCacheKey host secret cid, a, n1 + 3300 * 1000)],
         [.tokenPost]) ∧
      OnlineAppOnlyCredentials.getAuth host secret cid ⟨some a, some 3600⟩
          [(appOnlySecretCacheKey host secret cid, a, n1 + 3300 * 1000)] n2 =
        (.ok ("Bearer " ++ a),
         [(appOnlySecretCacheKey host secret cid, a, n1 + 3300 * 1000)], [])) := by
  refine ⟨?_, ?_, ?_, ?_⟩
  · intro host secret cid resp cache now v h
    have hg := Cache.get_hit h
    simp [OnlineAppOnlyCredentials.getAuth, hg]
  · intro host cid rr dcResp pollResps cache now v h
    have hg := Cache.get_hit h
    simp [DeviceCode.getAuth, hg]
  · intro td cid rr cb ex cache now v h
    have hg := Cache.get_hit h
    simp [InteractiveBrowser.getAuth, hg]
  · intro host secret cid a n1 n2 h2
    constructor
    · simp [OnlineAppOnlyCredentials.getAuth, Cache.get, Cache.set,
        Cache.removeKey, jsOrDefaultInt]
    · have h2n : ¬ n1 + 3300000 < n2 := by omega
      simp [OnlineAppOnlyCredentials.getAuth, Cache.get, List.find?, h2n,
        jsOrDefaultInt]

/-- Witness for C6: the concrete two-call scenario: first call on a fresh
cache issues the token POST and writes the cache entry, the second call 1
second later hits the cache with no requests. -/
theorem cached_token_short_circuit_witness :
    OnlineAppOnlyCredentials.getAuth "contoso.sharepoint.com" "s" "cid"
        ⟨some "T", some 3600⟩ [] 0 =
      (.ok ("Bearer " ++ "T"),
       [(appOnlySecretCacheKey "contoso.sharepoint.com" "s" "cid", "T",
         (0 : Int) + 3300 * 1000)],
       [.tokenPost]) ∧
    OnlineAppOnlyCredentials.getAuth "contoso.sharepoint.com" "s" "cid"
        ⟨some "T", some 3600⟩
        [(appOnlySecretCacheKey "contoso.sharepoint.com" "s" "cid", "T",
          (0 : Int) + 3300 * 1000)] 1000 =
      (.ok ("Bearer " ++ "T"),
       [(appOnlySecretCacheKey "contoso.sharepoint.com" "s" "cid", "T",
         (0 : Int) + 3300 * 1000)], []) :=
  cached_token_short_circuit.2.2.2 "contoso.sharepoint.com" "s" "cid" "T" 0 1000
    (by decide)

/-- Claim C10: in both app-only variants, a token response without an
expires_in field is treated as expires_in 3599, so the access token is
cached with TTL max(3599 - 300, 60) = 3299 seconds (no failure and no
60-second floor). -/
theorem default_expires_in_applied :
    jsOrDefaultInt none 3599 = 3599 ∧
    max ((3599 : Int) - 300) 60 = 3299 ∧
    OnlineAppOnlyCredentials.getAuth "h" "s" "c" ⟨some "T", none⟩ [] 0 =
      (.ok ("Bearer " ++ "T"),
       [(appOnlySecretCacheKey "h" "s" "c", "T", 3299 * 1000)], [.tokenPost]) ∧
    OnlineAppOnlyCredentialsCert.getAuth "h" "p" "c" ⟨some "T", none⟩ [] 0 =
      (.ok ("Bearer " ++ "T"),
       [(appOnlyCertCacheKey "h" "p" "c", "T", 3299 * 1000)], [.tokenPost]) := by
  refine ⟨rfl, by decide, by decide, by decide⟩
